import Mathlib

/-!
Shallow embedding of the billing / usage-ledger core of the roomprintz
repository: the token ledger, the `try_spend_tokens` reservation RPC, the
`/api/stage-room` route (`src/unnamed/part_007`, originally
`app/api/stage-room/route.ts`), `lib/callCompositorEngine.ts`, and the Stripe
webhook handler (`src/supabase/functions/stripe-webhook/index.ts`).

Databases are modelled as explicit in-memory lists, remote calls as explicit
inputs, and each HTTP handler as a pure function from request + environment to
a result record carrying the response status, the new state and a trace of the
externally visible effects (which remote fetches ran, which errors were
logged).
-/

namespace RoomPrintz

/-! ## Token ledger -/

/-- A row of the `token_ledger` table (§3 LedgerEntry). `job_id` is an extra
column only the stage-room refund insert sets. -/
structure LedgerEntry where
  user_id : String
  delta : Int
  kind : String
  external_id : String
  reason : String
  job_id : Option String := none
deriving Repr, DecidableEq

/-- Balance as the sum of a customer's deltas (§3 Balance). -/
def balanceOf (l : List LedgerEntry) (uid : String) : Int :=
  ((l.filter (fun e => e.user_id == uid)).map (fun e => e.delta)).sum

/-- Does the ledger already hold an entry with this idempotency key? -/
def hasKey (l : List LedgerEntry) (uid kind ext : String) : Bool :=
  l.any (fun e => e.user_id == uid && e.kind == kind && e.external_id == ext)

/-- Modelled from the spec: the `(customerId, kind, externalId)` uniqueness
constraint on `token_ledger` (§3); the migration defining the constraint is
not under `src/`, only the handlers that rely on it. An insert that violates
it fails with a duplicate-key error — which `isDuplicateInsert` in the
webhook recognizes and swallows — so here the insert returns `false` and
leaves the ledger unchanged in that case. -/
def ledgerInsert (l : List LedgerEntry) (e : LedgerEntry) :
    List LedgerEntry × Bool :=
  if hasKey l e.user_id e.kind e.external_id then (l, false) else (l ++ [e], true)

/-- Result row of the `try_spend_tokens` RPC as read by the route
(`{success, balance}`). -/
structure SpendResult where
  success : Bool
  balance : Int
deriving Repr, DecidableEq

/-- Modelled from the spec: the `try_spend_tokens` RPC (§4.5) is a database
function whose SQL source is not under `src/`; only its caller in the
stage-room route is. Per §4.5 it runs atomically per customer: a retry whose
`externalId` already has a spend entry is an idempotent no-op reporting
success with the current balance; otherwise, if `balance >= cost` it appends
`{delta := -cost, kind := spend, externalId := jobId}` and reports the new
balance; otherwise it makes no change and reports failure with the unchanged
balance. -/
def try_spend_tokens (l : List LedgerEntry) (uid : String) (cost : Int)
    (externalId reason : String) : SpendResult × List LedgerEntry :=
  if hasKey l uid "spend" externalId then
    ({ success := true, balance := balanceOf l uid }, l)
  else if cost ≤ balanceOf l uid then
    ({ success := true, balance := balanceOf l uid - cost },
      l ++ [{ user_id := uid, delta := -cost, kind := "spend",
              external_id := externalId, reason := reason }])
  else
    ({ success := false, balance := balanceOf l uid }, l)

/-! ## `lib/callCompositorEngine.ts` -/

/-- JSON body returned by the compositor backend (`CompositorResponse`). -/
structure CompositorResponse where
  imageUrl : Option String
  originalImageUrl : Option String
  error : Option String
deriving Repr, DecidableEq

/-- Successful return value of `callCompositorEngine`. -/
structure CompositorOk where
  imageUrl : String
  originalImageUrl : Option String
deriving Repr, DecidableEq

/-- JavaScript truthiness of an optional string: absent, null and `""` are
falsy. -/
def optTruthy : Option String → Bool
  | none => false
  | some s => !s.isEmpty

/-- `callCompositorEngine`: the HTTP call either fails (non-ok status or
network error — modelled as `data = none`), which the function turns into a
thrown error, or yields a `CompositorResponse`; a logical error response
(`data.error` truthy, or `imageUrl` absent/empty) is also thrown. Only a
response with a truthy `imageUrl` returns normally. `Except.error` models a
thrown exception. -/
def callCompositorEngine (data : Option CompositorResponse) :
    Except String CompositorOk :=
  match data with
  | none => Except.error "Compositor backend error"
  | some d =>
      if optTruthy d.error || !optTruthy d.imageUrl then
        Except.error "Compositor did not return imageUrl"
      else
        match d.imageUrl with
        | some u => Except.ok { imageUrl := u, originalImageUrl := d.originalImageUrl }
        | none => Except.error "Compositor did not return imageUrl"

/-! ## `/api/stage-room` route (`src/unnamed/part_007`) -/

/-- JavaScript `String.prototype.trim`, modelled over the character list so
that proofs can evaluate it (only ASCII whitespace matters here). -/
def jsTrim (s : String) : String :=
  ⟨(s.data.dropWhile Char.isWhitespace).reverse.dropWhile Char.isWhitespace |>.reverse⟩

/-- JavaScript `String.prototype.toLowerCase`, per character. -/
def jsToLower (s : String) : String := ⟨s.data.map Char.toLower⟩

/-- JavaScript `String.prototype.startsWith`. -/
def jsStartsWith (s p : String) : Bool := s.data.take p.data.length == p.data

/-- JavaScript `String.prototype.slice(n)` for a nonnegative index. -/
def jsDrop (s : String) (n : Nat) : String := ⟨s.data.drop n⟩

/-- `norm` helper of the route: trim + lowercase. -/
def norm (s : String) : String := jsToLower (jsTrim s)

/-- Trimmed-nonempty form-field normalization used for `jobId`, `propertyId`
and `roomType`: `typeof raw === "string" && raw.trim().length > 0 ?
raw.trim() : null`. -/
def normForm : Option String → Option String
  | none => none
  | some s => if (jsTrim s).length > 0 then some (jsTrim s) else none

/-- `styleId` normalization: nonempty after trimming, but the UNtrimmed raw
value is kept (`? styleIdRaw : null` in the source). -/
def normStyleId : Option String → Option String
  | none => none
  | some s => if (jsTrim s).length > 0 then some s else none

/-- `flooringPreset` normalization: `""` and `"none"` become null. -/
def normFlooring : Option String → Option String
  | none => none
  | some s =>
      let t := jsTrim s
      if t == "" || t == "none" then none else some t

/-- Room label of a `jobs` row: `r?.room_name?.trim() || "Unlabeled room"`. -/
def roomLabel : Option String → String
  | none => "Unlabeled room"
  | some s => if (jsTrim s).isEmpty then "Unlabeled room" else jsTrim s

/-- Bounded search for the source's `while` loop in `suggestUniqueRoomName`;
the source loop terminates because the candidate names are pairwise distinct
and `existing` is finite, so `existing.length + 1` steps of fuel suffice. -/
def suggestAux (base : String) (existing : List String) : Nat → Nat → String
  | 0, n => base ++ " (" ++ toString n ++ ")"
  | fuel + 1, n =>
      if existing.contains (norm (base ++ " (" ++ toString n ++ ")")) then
        suggestAux base existing fuel (n + 1)
      else base ++ " (" ++ toString n ++ ")"

/-- `suggestUniqueRoomName` of the route. -/
def suggestUniqueRoomName (desired : String) (existing : List String) : String :=
  let base := if (jsTrim desired).isEmpty then "Untitled room" else jsTrim desired
  if existing.contains (norm base) then
    suggestAux base existing (existing.length + 1) 2
  else base

/-- Extraction of the bearer token from the `authorization` header:
`startsWith("Bearer ")`, slice and trim; an empty token is falsy and treated
as missing. -/
def bearerTokenOf (authHeader : String) : Option String :=
  if jsStartsWith authHeader "Bearer " then
    let t := jsTrim (jsDrop authHeader 7)
    if t.isEmpty then none else some t
  else none

/-- The multipart form fields of a stage-room request, each as the raw string
the route reads (absent field ↦ `none`), plus the `authorization` header and
whether `file` is a Blob. -/
structure StageRoomRequest where
  authorizationHeader : String
  hasFile : Bool
  jobId : Option String
  styleId : Option String
  enhancePhoto : Option String
  cleanupRoom : Option String
  repairDamage : Option String
  emptyRoom : Option String
  renovateRoom : Option String
  repaintWalls : Option String
  flooringPreset : Option String
  roomType : Option String
  modelVersion : Option String
  aspectRatio : Option String
  isContinuation : Option String
  propertyId : Option String
  roomName : Option String
deriving Repr, DecidableEq

/-- The route's environment: the authenticated user id (if the bearer token
verifies), the ledger, the `jobs` rows for this user+property
(`none` = the lineage-guard query errored, which the route treats fail-open),
whether the spend RPC itself errors, and what the compositor backend
answers. -/
structure StageRoomEnv where
  authUser : Option String
  ledger : List LedgerEntry
  jobsRows : Option (List (Option String))
  spendRpcError : Bool
  compositorData : Option CompositorResponse
deriving Repr, DecidableEq

/-- Outcome of one stage-room request: response status, resulting ledger, and
a trace of whether the spend RPC and the compositor were invoked, plus the
response fields the claims mention. -/
structure StageRoomResult where
  status : Nat
  ledger : List LedgerEntry
  spendCalled : Bool
  compositorCalled : Bool
  required : Option Int := none
  tokenBalance : Option Int := none
  suggestedRoomName : Option String := none
deriving Repr, DecidableEq

/-- An early rejection: no spend, no compositor call, ledger untouched. -/
def rejectWith (env : StageRoomEnv) (status : Nat) : StageRoomResult :=
  { status := status, ledger := env.ledger, spendCalled := false,
    compositorCalled := false }

/-- `normalizedModelVersion` of the route: `"gemini-3"` unless the form
supplies one of the two allowed values. -/
def normalizedModelVersionOf (req : StageRoomRequest) : String :=
  match req.modelVersion with
  | some s => if s == "gemini-3" || s == "gemini-2.5" then s else "gemini-3"
  | none => "gemini-3"

/-- The token-cost rule of the route: gemini-3 costs 2 tokens, gemini-2.5
costs 1. -/
def stageRoomCost (req : StageRoomRequest) : Int :=
  if normalizedModelVersionOf req == "gemini-3" then 2 else 1

/-- The "no styleId and no photo tools selected" condition of the route's
safety check. -/
def noActionSelected (req : StageRoomRequest) : Bool :=
  (normStyleId req.styleId).isNone &&
  !(req.enhancePhoto == some "true") &&
  !(req.cleanupRoom == some "true") &&
  !(req.repairDamage == some "true") &&
  !(req.emptyRoom == some "true") &&
  !(req.renovateRoom == some "true") &&
  !(req.repaintWalls == some "true") &&
  (normFlooring req.flooringPreset).isNone

/-- Effective room name: trimmed, defaulting to "Untitled room". -/
def roomNameOf (req : StageRoomRequest) : String :=
  match normForm req.roomName with
  | some s => s
  | none => "Untitled room"

/-- The room-lineage guard: skipped for continuations; fail-open when the
`jobs` query errors (`env.jobsRows = none`); otherwise a conflict (with its
suggested alternative name) when the normalized requested room name is
already taken for this user + property. -/
def lineageConflictOf (req : StageRoomRequest) (env : StageRoomEnv) :
    Option String :=
  if req.isContinuation == some "true" then none
  else
    match env.jobsRows with
    | none => none
    | some rows =>
        let existing := rows.map (fun r => norm (roomLabel r))
        if existing.contains (norm (roomNameOf req)) then
          some (suggestUniqueRoomName (roomNameOf req) existing)
        else none

/-- The spend-and-generate tail of the route, entered only once every
validation check has passed: the `try_spend_tokens` RPC (500 when the RPC
itself errors, 402 when it reports failure), the compositor call (a thrown
compositor error reaches the route's outer catch: 500 with NO refund), the
source's `if (!imageUrl)` refund branch, and the 200 response. -/
def stageRoomSpendPhase (env : StageRoomEnv) (uid jobId : String)
    (cost : Int) (reason : String) : StageRoomResult :=
  if env.spendRpcError then
    { status := 500, ledger := env.ledger, spendCalled := true,
      compositorCalled := false }
  else
    let spent := try_spend_tokens env.ledger uid cost jobId reason
    if !spent.1.success then
      { status := 402, ledger := spent.2, spendCalled := true,
        compositorCalled := false, required := some cost,
        tokenBalance := some spent.1.balance }
    else
      match callCompositorEngine env.compositorData with
      | Except.error _ =>
          { status := 500, ledger := spent.2, spendCalled := true,
            compositorCalled := true }
      | Except.ok result =>
          if result.imageUrl.isEmpty then
            let ins := ledgerInsert spent.2
              { user_id := uid, delta := cost, kind := "refund",
                external_id := jobId, reason := "generation_failed_refund",
                job_id := some jobId }
            { status := 500, ledger := ins.1, spendCalled := true,
              compositorCalled := true }
          else
            { status := 200, ledger := spent.2, spendCalled := true,
              compositorCalled := true, tokenBalance := some spent.1.balance }

/-- The `POST` handler of `app/api/stage-room/route.ts`, in source order:
bearer-token check (401), `auth.getUser` (401), `file` (400), `jobId` (400),
field parsing, `propertyId` (400), at-least-one-action check (400), room-name
lineage guard (409, skipped for continuations, fail-open on query error),
token cost from the model version, `try_spend_tokens` (402 on failure),
compositor call (a throw reaches the route's outer catch: 500 with NO
refund), the `!imageUrl` refund branch, and the 200 response. -/
def stageRoomPOST (req : StageRoomRequest) (env : StageRoomEnv) :
    StageRoomResult :=
  match bearerTokenOf req.authorizationHeader with
  | none => rejectWith env 401
  | some _tok =>
  match env.authUser with
  | none => rejectWith env 401
  | some uid =>
  if !req.hasFile then rejectWith env 400
  else
  match normForm req.jobId with
  | none => rejectWith env 400
  | some jobId =>
  match normForm req.propertyId with
  | none => rejectWith env 400
  | some _propertyId =>
  if noActionSelected req then rejectWith env 400
  else
  match lineageConflictOf req env with
  | some suggestion =>
      { rejectWith env 409 with suggestedRoomName := some suggestion }
  | none =>
  stageRoomSpendPhase env uid jobId (stageRoomCost req)
    ("room_generation:" ++ normalizedModelVersionOf req)

end RoomPrintz

namespace RoomPrintz

/-! ## Stripe webhook (`src/supabase/functions/stripe-webhook/index.ts`) -/

/-- `getUserIdFromMetadata`: `metadata.user_id` if it is a nonempty string. -/
def getUserIdFromMetadata (metadata_user_id : Option String) : Option String :=
  match metadata_user_id with
  | some v => if v.length > 0 then some v else none
  | none => none

/-- `unixToIso`: `if (!seconds) return null` — absent, null and `0` all map
to null. ISO-8601 rendering is injective on epoch seconds, so the timestamp
is modelled by the seconds value itself. -/
def unixToIso : Option Int → Option Int
  | none => none
  | some s => if s == 0 then none else some s

/-- A Stripe subscription object, as the handler reads it: id, metadata
user id, customer id, `status`, the first item's price id, and
`current_period_end`. -/
structure StripeSubscription where
  id : String
  metadata_user_id : Option String
  customer : String
  status : Option String
  priceId : Option String
  current_period_end : Option Int
deriving Repr, DecidableEq

/-- A Stripe invoice object, as the handler reads it. -/
structure Invoice where
  id : String
  customer : Option String
  subscription : Option String
deriving Repr, DecidableEq

/-- A Stripe checkout session, as the handler reads it. -/
structure CheckoutSession where
  id : String
  metadata_user_id : Option String
  customer : Option String
  subscription : Option String
  mode : String
deriving Repr, DecidableEq

/-- The three `customer.subscription.*` event types share one handler arm. -/
inductive SubEventType where
  | created
  | updated
  | deleted
deriving Repr, DecidableEq

/-- The webhook events the handler distinguishes; `invoicePaid` covers both
`invoice.paid` and `invoice.payment_succeeded`, which share an arm, and
`other` is every event type the `switch` ignores. -/
inductive StripeEvent where
  | checkoutSessionCompleted (session : CheckoutSession)
  | customerSubscription (t : SubEventType) (sub : StripeSubscription)
  | invoicePaid (invoice : Invoice)
  | invoicePaymentFailed (invoice : Invoice)
  | other (type : String)
deriving Repr, DecidableEq

/-- A row of the `subscriptions` table (§3 SubscriptionState). -/
structure SubscriptionRow where
  user_id : String
  stripe_customer_id : Option String
  stripe_subscription_id : Option String
  status : String
  plan_id : Option String
  current_period_end : Option Int
deriving Repr, DecidableEq

/-- A row of the `plans` catalog table. -/
structure Plan where
  id : String
  stripe_price_id : String
  monthly_tokens : Int
deriving Repr, DecidableEq

/-- A row of the `token_topups` catalog table. -/
structure Topup where
  stripe_price_id : String
  tokens : Int
  is_active : Bool
deriving Repr, DecidableEq

/-- The database state the webhook touches. -/
structure DbState where
  subscriptions : List SubscriptionRow
  token_ledger : List LedgerEntry
  plans : List Plan
  token_topups : List Topup
deriving Repr, DecidableEq

/-- `getPlanByPriceId`: lookup in `plans` by `stripe_price_id`
(`maybeSingle`). -/
def getPlanByPriceId (plans : List Plan) : Option String → Option Plan
  | none => none
  | some priceId => plans.find? (fun p => p.stripe_price_id == priceId)

/-- `getTopupByPriceId`: lookup in `token_topups` by `stripe_price_id`,
restricted to `is_active = true` (`maybeSingle`). -/
def getTopupByPriceId (topups : List Topup) : Option String → Option Topup
  | none => none
  | some priceId =>
      topups.find? (fun t => t.stripe_price_id == priceId && t.is_active)

/-- `.from("subscriptions").eq("stripe_customer_id", customerId)
.maybeSingle()`. -/
def findSubByCustomer (subs : List SubscriptionRow) (customerId : String) :
    Option SubscriptionRow :=
  subs.find? (fun r => r.stripe_customer_id == some customerId)

/-- `resolveUserIdForInvoice`: primary lookup by `stripe_customer_id` in
`subscriptions`; fall back to `subscription.metadata.user_id`. -/
def resolveUserIdForInvoice (subsTable : List SubscriptionRow)
    (invoice : Invoice) (sub : StripeSubscription) : Option String :=
  match invoice.customer with
  | some customerId =>
      match findSubByCustomer subsTable customerId with
      | some row =>
          if row.user_id.length > 0 then some row.user_id
          else getUserIdFromMetadata sub.metadata_user_id
      | none => getUserIdFromMetadata sub.metadata_user_id
  | none => getUserIdFromMetadata sub.metadata_user_id

/-- The checkout-flow upsert sets only `user_id`, `stripe_customer_id`,
`stripe_subscription_id` and `status`; on conflict (keyed by `user_id`) the
remaining columns keep their old values. -/
def upsertSubsCheckout (subs : List SubscriptionRow) (uid : String)
    (customerId subscriptionId : Option String) : List SubscriptionRow :=
  if subs.any (fun r => r.user_id == uid) then
    subs.map (fun r =>
      if r.user_id == uid then
        { r with stripe_customer_id := customerId,
                 stripe_subscription_id := subscriptionId,
                 status := "incomplete" }
      else r)
  else
    subs ++ [{ user_id := uid, stripe_customer_id := customerId,
               stripe_subscription_id := subscriptionId,
               status := "incomplete", plan_id := none,
               current_period_end := none }]

/-- The full upsert used by the subscription-event and invoice-paid arms:
every column is supplied, so on conflict the row is replaced. -/
def upsertSubsFull (subs : List SubscriptionRow) (row : SubscriptionRow) :
    List SubscriptionRow :=
  if subs.any (fun r => r.user_id == row.user_id) then
    subs.map (fun r => if r.user_id == row.user_id then row else r)
  else subs ++ [row]

/-- The provider's current state, consulted by the handler's remote fetches:
`stripe.subscriptions.retrieve` and the expanded
`stripe.checkout.sessions.retrieve` (modelled by the price id of the first
line item; a session whose line items carry no price resolves to `none`). -/
structure StripeRemote where
  subs : List StripeSubscription
  sessionLinePriceIds : List (String × Option String)
deriving Repr, DecidableEq

/-- `stripe.subscriptions.retrieve sid`; `none` models a throwing retrieve. -/
def retrieveSubscription (r : StripeRemote) (sid : String) :
    Option StripeSubscription :=
  r.subs.find? (fun s => s.id == sid)

/-- Price id of the first line item of the expanded checkout session. -/
def retrieveSessionLinePrice (r : StripeRemote) (sessionId : String) :
    Option String :=
  match r.sessionLinePriceIds.find? (fun p => p.1 == sessionId) with
  | some p => p.2
  | none => none

/-- Subscription id used by the `invoice.paid` arm: the invoice's own
subscription id, falling back to the one stored in the `subscriptions`
row. -/
def resolvedSubscriptionId (invoice : Invoice) (row : SubscriptionRow) :
    Option String :=
  match invoice.subscription with
  | some s => some s
  | none => row.stripe_subscription_id

/-- The `monthly_grant` ledger entry the `invoice.paid` arm inserts. -/
def grantEntryOf (uidv invoiceId : String) (plan : Plan) : LedgerEntry :=
  { user_id := uidv, delta := plan.monthly_tokens, kind := "monthly_grant",
    external_id := invoiceId,
    reason := "Monthly tokens for plan " ++ plan.id }

/-- The `subscriptions` row the `invoice.paid` arm upserts, built entirely
from the freshly retrieved subscription snapshot and the resolved plan. -/
def paidUpsertRow (customerId uidv : String) (sub : StripeSubscription)
    (plan : Plan) : SubscriptionRow :=
  { user_id := uidv, stripe_customer_id := some customerId,
    stripe_subscription_id := some sub.id,
    status := (match sub.status with | some s => s | none => "active"),
    plan_id := some plan.id,
    current_period_end := unixToIso sub.current_period_end }

/-- The `subscriptions` row the `customer.subscription.*` arm upserts, built
entirely from the event payload object (no provider re-fetch). -/
def subEventUpsertRow (uidv : String) (sub : StripeSubscription)
    (plan : Option Plan) : SubscriptionRow :=
  { user_id := uidv, stripe_customer_id := some sub.customer,
    stripe_subscription_id := some sub.id,
    status := (match sub.status with | some s => s | none => "inactive"),
    plan_id := plan.map Plan.id,
    current_period_end := unixToIso sub.current_period_end }

/-- Outcome of dispatching one verified event: response status, new database
state, which subscription id (if any) was re-fetched from Stripe, and which
errors were logged. -/
structure WebhookResult where
  status : Nat
  db : DbState
  retrievedSubId : Option String := none
  loggedErrors : List String := []
deriving Repr, DecidableEq

/-- The `switch (event.type)` body of the webhook, one arm per event kind, in
source order. A `break` with nothing more to do returns 200; a thrown store
or Stripe error reaches the surrounding catch and returns 500. Duplicate-key
ledger inserts are swallowed via `isDuplicateInsert`. -/
def webhookHandler (db : DbState) (remote : StripeRemote) (ev : StripeEvent) :
    WebhookResult :=
  match ev with
  | .checkoutSessionCompleted session =>
      match getUserIdFromMetadata session.metadata_user_id with
      | none => { status := 200, db := db }
      | some userId =>
        if session.mode == "payment" then
          match retrieveSessionLinePrice remote session.id with
          | none =>
              { status := 200, db := db,
                loggedErrors := ["topup_missing_price_id"] }
          | some priceId =>
            match getTopupByPriceId db.token_topups (some priceId) with
            | none =>
                { status := 200, db := db,
                  loggedErrors := ["topup_unknown_price_id"] }
            | some topup =>
                let ins := ledgerInsert db.token_ledger
                  { user_id := userId, delta := topup.tokens, kind := "topup",
                    external_id := session.id,
                    reason := "Stripe top-up (" ++ toString topup.tokens ++
                      " tokens)" }
                { status := 200, db := { db with token_ledger := ins.1 } }
        else
          { status := 200,
            db := { db with subscriptions :=
              (upsertSubsCheckout db.subscriptions userId session.customer
                session.subscription) } }
  | .customerSubscription _t sub =>
      match getUserIdFromMetadata sub.metadata_user_id with
      | none => { status := 200, db := db }
      | some userId =>
        { status := 200,
          db := { db with subscriptions := (upsertSubsFull db.subscriptions
            (subEventUpsertRow userId sub
              (getPlanByPriceId db.plans sub.priceId))) } }
  | .invoicePaid invoice =>
      match invoice.customer with
      | none => { status := 200, db := db }
      | some customerId =>
        match findSubByCustomer db.subscriptions customerId with
        | none => { status := 200, db := db }
        | some row =>
          if row.user_id.isEmpty then { status := 200, db := db }
          else
          match resolvedSubscriptionId invoice row with
          | none => { status := 200, db := db }
          | some sid =>
            match retrieveSubscription remote sid with
            | none => { status := 500, db := db, retrievedSubId := some sid }
            | some sub =>
              match sub.priceId with
              | none => { status := 200, db := db, retrievedSubId := some sid }
              | some priceId =>
                match getPlanByPriceId db.plans (some priceId) with
                | none =>
                    { status := 200, db := db, retrievedSubId := some sid }
                | some plan =>
                  let ins := ledgerInsert db.token_ledger
                    (grantEntryOf row.user_id invoice.id plan)
                  { status := 200, retrievedSubId := some sid,
                    db := { db with
                      token_ledger := ins.1,
                      subscriptions := (upsertSubsFull db.subscriptions
                        (paidUpsertRow customerId row.user_id sub plan)) } }
  | .invoicePaymentFailed invoice =>
      match invoice.subscription with
      | none => { status := 200, db := db }
      | some sid =>
        match retrieveSubscription remote sid with
        | none => { status := 500, db := db, retrievedSubId := some sid }
        | some sub =>
          match resolveUserIdForInvoice db.subscriptions invoice sub with
          | none => { status := 200, db := db, retrievedSubId := some sid }
          | some userId =>
            { status := 200, retrievedSubId := some sid,
              db := { db with subscriptions := (db.subscriptions.map (fun r =>
                if r.user_id == userId then { r with status := "past_due" }
                else r)) } }
  | .other _ => { status := 200, db := db }

/-- Outcome of one full request to the webhook endpoint; `verifiedBody`
records the exact string handed to signature verification, `dispatched`
whether the event `switch` was entered. -/
structure ServeResult where
  status : Nat
  db : DbState
  verifiedBody : Option String := none
  dispatched : Bool := false
  retrievedSubId : Option String := none
  loggedErrors : List String := []
deriving Repr, DecidableEq

/-- The `Deno.serve` request handler: method check, raw body, signature
header check, `stripe.webhooks.constructEventAsync(bodyText, sig, secret)`,
then the event `switch`. `constructEvent` is the Stripe SDK's verifier —
modelled from the spec (§4.1), since the SDK is not under `src/`: it returns
the parsed event exactly when the signature matches the raw bytes it is
given, and fails otherwise. The handler passes `bodyText`, the raw request
body, to it unmodified. -/
def serveWebhook (db : DbState) (remote : StripeRemote)
    (constructEvent : String → String → Option StripeEvent)
    (method : String) (rawBody : String) (sigHeader : Option String) :
    ServeResult :=
  if method != "POST" then { status := 405, db := db }
  else
    match sigHeader with
    | none => { status := 400, db := db }
    | some sig =>
      match constructEvent rawBody sig with
      | none => { status := 400, db := db, verifiedBody := some rawBody }
      | some ev =>
          let r := webhookHandler db remote ev
          { status := r.status, db := r.db, verifiedBody := some rawBody,
            dispatched := true, retrievedSubId := r.retrievedSubId,
            loggedErrors := r.loggedErrors }

end RoomPrintz

namespace RoomPrintz

/-! ## General lemmas -/

/-- A retrieved subscription carries the id it was retrieved by. -/
theorem retrieveSubscription_id {r : StripeRemote} {sid : String}
    {sub : StripeSubscription} (h : retrieveSubscription r sid = some sub) :
    sub.id = sid := by
  unfold retrieveSubscription at h
  have := List.find?_some h
  simpa using this

/-- A successful `callCompositorEngine` always returns a nonempty
`imageUrl`, so the route's `if (!imageUrl)` refund branch can never run. -/
theorem callCompositorEngine_ok_imageUrl_nonempty
    {data : Option CompositorResponse} {r : CompositorOk}
    (h : callCompositorEngine data = Except.ok r) : r.imageUrl.isEmpty = false := by
  cases data with
  | none => simp [callCompositorEngine] at h
  | some d =>
    cases hu : d.imageUrl with
    | none => simp [callCompositorEngine, hu, optTruthy] at h
    | some u =>
      by_cases he : optTruthy d.error = true
      · simp [callCompositorEngine, he] at h
      · have hb : optTruthy d.error = false := by simpa using he
        by_cases hue : u.isEmpty = true
        · have htu : optTruthy (some u) = false := by simp [optTruthy, hue]
          simp [callCompositorEngine, hu, hb, htu] at h
        · have hub : u.isEmpty = false := by simpa using hue
          have htu : optTruthy (some u) = true := by simp [optTruthy, hub]
          have h2 : (Except.ok { imageUrl := u, originalImageUrl := d.originalImageUrl } :
              Except String CompositorOk) = Except.ok r := by
            rw [← h]; simp [callCompositorEngine, hu, hb, htu]
          injection h2 with h3
          rw [← h3]
          simpa using hub

/-! ## Shared concrete fixtures -/

def exPlan : Plan := { id := "plan1", stripe_price_id := "price1", monthly_tokens := 100 }

def exPayloadSub : StripeSubscription :=
  { id := "sub1", metadata_user_id := some "u1", customer := "cus1",
    status := some "canceled", priceId := some "price1", current_period_end := some 100 }

def exCurrentSub : StripeSubscription :=
  { id := "sub1", metadata_user_id := none, customer := "cus1",
    status := some "active", priceId := some "price1", current_period_end := some 200 }

def exRemote : StripeRemote := { subs := [exCurrentSub], sessionLinePriceIds := [] }

def exRow : SubscriptionRow :=
  { user_id := "u1", stripe_customer_id := some "cus1",
    stripe_subscription_id := some "sub1", status := "active",
    plan_id := some "plan1", current_period_end := some 111 }

def exDb : DbState :=
  { subscriptions := [exRow], token_ledger := [], plans := [exPlan], token_topups := [] }

def exDbNoRows : DbState :=
  { subscriptions := [], token_ledger := [], plans := [exPlan], token_topups := [] }

def exInvoice : Invoice := { id := "in_1", customer := some "cus1", subscription := some "sub1" }

/-! ## C7 -/

/-- C7: a one-time (topup) checkout completion whose price id has no active
mapping in the topup catalog creates no ledger entry and changes nothing
else, invents no token amount, logs an error, and is still acknowledged with
HTTP 200. -/
theorem C7_unmapped_topup_price_is_noop (db : DbState) (remote : StripeRemote)
    (session : CheckoutSession) (userId priceId : String)
    (huser : getUserIdFromMetadata session.metadata_user_id = some userId)
    (hmode : session.mode = "payment")
    (hline : retrieveSessionLinePrice remote session.id = some priceId)
    (htopup : getTopupByPriceId db.token_topups (some priceId) = none) :
    webhookHandler db remote (.checkoutSessionCompleted session) =
      { status := 200, db := db, loggedErrors := ["topup_unknown_price_id"] } := by
  simp [webhookHandler, huser, hmode, hline, htopup]

def exTopupSession : CheckoutSession :=
  { id := "cs_1", metadata_user_id := some "u1", customer := some "cus1",
    subscription := none, mode := "payment" }

def exRemoteTopup : StripeRemote :=
  { subs := [], sessionLinePriceIds := [("cs_1", some "price_unmapped")] }

/-- Witness for C7 at a concrete unmapped topup price. -/
theorem C7_witness :
    getUserIdFromMetadata exTopupSession.metadata_user_id = some "u1" ∧
    exTopupSession.mode = "payment" ∧
    retrieveSessionLinePrice exRemoteTopup exTopupSession.id = some "price_unmapped" ∧
    getTopupByPriceId exDb.token_topups (some "price_unmapped") = none ∧
    webhookHandler exDb exRemoteTopup (.checkoutSessionCompleted exTopupSession) =
      { status := 200, db := exDb, loggedErrors := ["topup_unknown_price_id"] } := by
  refine ⟨by decide, by decide, by decide, by decide, ?_⟩
  exact C7_unmapped_topup_price_is_noop exDb exRemoteTopup exTopupSession "u1"
    "price_unmapped" (by decide) (by decide) (by decide) (by decide)

end RoomPrintz

namespace RoomPrintz

/-! ## C9 -/

/-- C9: signature verification runs on the unmodified raw request body (the
verifier always receives exactly the raw body string), and on verification
failure the endpoint answers 400 and performs no further processing: no
event dispatch, no ledger write, no subscription-state change. -/
theorem C9_invalid_signature_rejected_without_processing
    (db : DbState) (remote : StripeRemote)
    (constructEvent : String → String → Option StripeEvent)
    (rawBody sig : String)
    (hfail : constructEvent rawBody sig = none) :
    serveWebhook db remote constructEvent "POST" rawBody (some sig) =
      { status := 400, db := db, verifiedBody := some rawBody } ∧
    ∀ body s,
      (serveWebhook db remote constructEvent "POST" body (some s)).verifiedBody
        = some body := by
  constructor
  · simp [serveWebhook, hfail]
  · intro body s
    cases h : constructEvent body s <;> simp [serveWebhook, h]

def exConstructNone : String → String → Option StripeEvent := fun _ _ => none

/-- Witness for C9 at a concrete body and failing verifier. -/
theorem C9_witness :
    exConstructNone "rawbody" "sig" = none ∧
    serveWebhook exDb exRemote exConstructNone "POST" "rawbody" (some "sig") =
      { status := 400, db := exDb, verifiedBody := some "rawbody" } := by
  refine ⟨rfl, ?_⟩
  exact (C9_invalid_signature_rejected_without_processing exDb exRemote
    exConstructNone "rawbody" "sig" rfl).1

/-! ## C8 -/

/-- C8: `invoice.payment_failed` sets the resolved customer's subscription
status to `past_due` and changes nothing else: the upsert touches only the
`status` field of that user's rows, `plans` and `token_topups` are
untouched, and the token ledger is untouched for every payment-failed
invoice whatsoever. -/
theorem C8_payment_failed_only_sets_past_due (db : DbState)
    (remote : StripeRemote) (invoice : Invoice) (sid : String)
    (sub : StripeSubscription) (userId : String)
    (hsid : invoice.subscription = some sid)
    (hsub : retrieveSubscription remote sid = some sub)
    (hres : resolveUserIdForInvoice db.subscriptions invoice sub = some userId) :
    (webhookHandler db remote (.invoicePaymentFailed invoice)).status = 200 ∧
    (webhookHandler db remote (.invoicePaymentFailed invoice)).db.subscriptions =
      db.subscriptions.map (fun row =>
        if row.user_id == userId then { row with status := "past_due" } else row) ∧
    (webhookHandler db remote (.invoicePaymentFailed invoice)).db.plans = db.plans ∧
    (webhookHandler db remote (.invoicePaymentFailed invoice)).db.token_topups =
      db.token_topups ∧
    ∀ inv2 : Invoice,
      (webhookHandler db remote (.invoicePaymentFailed inv2)).db.token_ledger =
        db.token_ledger := by
  refine ⟨?_, ?_, ?_, ?_, ?_⟩
  · simp [webhookHandler, hsid, hsub, hres]
  · simp [webhookHandler, hsid, hsub, hres]
  · simp [webhookHandler, hsid, hsub, hres]
  · simp [webhookHandler, hsid, hsub, hres]
  · intro inv2
    cases h1 : inv2.subscription with
    | none => simp [webhookHandler, h1]
    | some s =>
      cases h2 : retrieveSubscription remote s with
      | none => simp [webhookHandler, h1, h2]
      | some sb =>
        cases h3 : resolveUserIdForInvoice db.subscriptions inv2 sb with
        | none => simp [webhookHandler, h1, h2, h3]
        | some u => simp [webhookHandler, h1, h2, h3]

/-- Witness for C8 at a concrete payment-failed invoice. -/
theorem C8_witness :
    exInvoice.subscription = some "sub1" ∧
    retrieveSubscription exRemote "sub1" = some exCurrentSub ∧
    resolveUserIdForInvoice exDb.subscriptions exInvoice exCurrentSub = some "u1" ∧
    (webhookHandler exDb exRemote (.invoicePaymentFailed exInvoice)).status = 200 ∧
    (webhookHandler exDb exRemote (.invoicePaymentFailed exInvoice)).db.subscriptions =
      exDb.subscriptions.map (fun row =>
        if row.user_id == "u1" then { row with status := "past_due" } else row) := by
  refine ⟨by decide, by decide, by decide, ?_, ?_⟩
  · exact (C8_payment_failed_only_sets_past_due exDb exRemote exInvoice "sub1"
      exCurrentSub "u1" (by decide) (by decide) (by decide)).1
  · exact (C8_payment_failed_only_sets_past_due exDb exRemote exInvoice "sub1"
      exCurrentSub "u1" (by decide) (by decide) (by decide)).2.1

/-! ## C3 -/

/-- C3 counterexample: on a `customer.subscription.updated` event the
handler performs NO provider re-fetch (`retrievedSubId = none`) and writes
status and period end straight from the event payload ("canceled", 100),
although the provider's current snapshot of the same subscription carries
("active", 200). -/
theorem C3_counterexample_subscription_event_uses_payload :
    (webhookHandler exDbNoRows exRemote
        (.customerSubscription .updated exPayloadSub)).retrievedSubId = none ∧
    ((webhookHandler exDbNoRows exRemote
        (.customerSubscription .updated exPayloadSub)).db.subscriptions.map
      (fun r => (r.status, r.current_period_end))) = [("canceled", some 100)] ∧
    ((retrieveSubscription exRemote "sub1").map
      (fun s => (s.status, s.current_period_end))) = some (some "active", some 200) := by
  decide

/-- C3 amended: only the `invoice.paid` arm re-fetches the subscription from
the provider and builds the upserted row exclusively from the fetched
snapshot; the `customer.subscription.created|updated|deleted` arms perform
no re-fetch and build the upserted row exclusively from the event payload
object. -/
theorem C3_amended_refetch_only_for_invoice_paid
    (db : DbState) (remote : StripeRemote) (invoice : Invoice) (c : String)
    (row : SubscriptionRow) (sid : String) (sub : StripeSubscription)
    (p : String) (plan : Plan)
    (hcust : invoice.customer = some c)
    (hfind : findSubByCustomer db.subscriptions c = some row)
    (huid : row.user_id.isEmpty = false)
    (hsid : resolvedSubscriptionId invoice row = some sid)
    (hsub : retrieveSubscription remote sid = some sub)
    (hprice : sub.priceId = some p)
    (hplan : getPlanByPriceId db.plans (some p) = some plan) :
    (∀ (t : SubEventType) (s : StripeSubscription),
      (webhookHandler db remote (.customerSubscription t s)).retrievedSubId = none ∧
      ∀ uidv, getUserIdFromMetadata s.metadata_user_id = some uidv →
        (webhookHandler db remote (.customerSubscription t s)).db.subscriptions =
          upsertSubsFull db.subscriptions
            (subEventUpsertRow uidv s (getPlanByPriceId db.plans s.priceId))) ∧
    (webhookHandler db remote (.invoicePaid invoice)).retrievedSubId = some sid ∧
    (webhookHandler db remote (.invoicePaid invoice)).db.subscriptions =
      upsertSubsFull db.subscriptions (paidUpsertRow c row.user_id sub plan) := by
  refine ⟨?_, ?_, ?_⟩
  · intro t s
    constructor
    · cases hh : getUserIdFromMetadata s.metadata_user_id <;>
        simp [webhookHandler, hh]
    · intro uidv hh
      simp [webhookHandler, hh]
  · simp [webhookHandler, hcust, hfind, huid, hsid, hsub, hprice, hplan]
  · simp [webhookHandler, hcust, hfind, huid, hsid, hsub, hprice, hplan]

/-- Witness for C3 at concrete events. -/
theorem C3_witness :
    findSubByCustomer exDb.subscriptions "cus1" = some exRow ∧
    retrieveSubscription exRemote "sub1" = some exCurrentSub ∧
    (webhookHandler exDb exRemote (.invoicePaid exInvoice)).retrievedSubId =
      some "sub1" ∧
    (webhookHandler exDb exRemote (.invoicePaid exInvoice)).db.subscriptions =
      upsertSubsFull exDb.subscriptions
        (paidUpsertRow "cus1" "u1" exCurrentSub exPlan) ∧
    (webhookHandler exDb exRemote
        (.customerSubscription .updated exPayloadSub)).retrievedSubId = none := by
  refine ⟨by decide, by decide, ?_, ?_, ?_⟩
  · exact (C3_amended_refetch_only_for_invoice_paid exDb exRemote exInvoice "cus1"
      exRow "sub1" exCurrentSub "price1" exPlan (by decide) (by decide) (by decide)
      (by decide) (by decide) (by decide) (by decide)).2.1
  · exact (C3_amended_refetch_only_for_invoice_paid exDb exRemote exInvoice "cus1"
      exRow "sub1" exCurrentSub "price1" exPlan (by decide) (by decide) (by decide)
      (by decide) (by decide) (by decide) (by decide)).2.2
  · exact ((C3_amended_refetch_only_for_invoice_paid exDb exRemote exInvoice "cus1"
      exRow "sub1" exCurrentSub "price1" exPlan (by decide) (by decide) (by decide)
      (by decide) (by decide) (by decide) (by decide)).1 .updated exPayloadSub).1

/-! ## C6 -/

def exInvoiceX : Invoice :=
  { id := "in_9", customer := some "cusX", subscription := some "subX" }

def exSubX : StripeSubscription :=
  { id := "subX", metadata_user_id := some "u9", customer := "cusX",
    status := some "active", priceId := some "price1", current_period_end := some 5 }

def exRemoteX : StripeRemote := { subs := [exSubX], sessionLinePriceIds := [] }

/-- C6 counterexample: an `invoice.paid` event whose customer id has no
stored mapping but whose subscription's metadata carries a user id. The
claimed lookup-then-metadata rule (implemented by `resolveUserIdForInvoice`)
would resolve "u9", but the invoice-paid arm performs no metadata fallback
at all: it never fetches the subscription and processes nothing (state
unchanged, acknowledged 200, no grant to "u9"). -/
theorem C6_counterexample_invoice_paid_no_metadata_fallback :
    resolveUserIdForInvoice exDbNoRows.subscriptions exInvoiceX exSubX = some "u9" ∧
    retrieveSubscription exRemoteX "subX" = some exSubX ∧
    (webhookHandler exDbNoRows exRemoteX (.invoicePaid exInvoiceX)).db = exDbNoRows ∧
    (webhookHandler exDbNoRows exRemoteX (.invoicePaid exInvoiceX)).retrievedSubId
      = none ∧
    (webhookHandler exDbNoRows exRemoteX (.invoicePaid exInvoiceX)).status = 200 := by
  decide

/-- C6 amended: for `invoice.payment_failed` the customer identity is
resolved by the stored-mapping lookup first, falling back to the
subscription's metadata only when the lookup yields no user, and the handler
applies the resolved user; for `invoice.paid` the handler resolves only via
the stored-mapping lookup and treats the event as a no-op (acknowledged 200)
when that lookup yields no row — no metadata fallback. -/
theorem C6_amended_resolution_precedence
    (db : DbState) (invoice : Invoice) (sub : StripeSubscription) (c : String)
    (hcust : invoice.customer = some c) :
    (∀ row, findSubByCustomer db.subscriptions c = some row →
        row.user_id.length > 0 →
        resolveUserIdForInvoice db.subscriptions invoice sub = some row.user_id) ∧
    (findSubByCustomer db.subscriptions c = none →
        resolveUserIdForInvoice db.subscriptions invoice sub =
          getUserIdFromMetadata sub.metadata_user_id) ∧
    (∀ remote, findSubByCustomer db.subscriptions c = none →
        webhookHandler db remote (.invoicePaid invoice) =
          { status := 200, db := db }) ∧
    (∀ remote sid sub2 u, invoice.subscription = some sid →
        retrieveSubscription remote sid = some sub2 →
        resolveUserIdForInvoice db.subscriptions invoice sub2 = some u →
        (webhookHandler db remote (.invoicePaymentFailed invoice)).db.subscriptions =
          db.subscriptions.map (fun r =>
            if r.user_id == u then { r with status := "past_due" } else r)) := by
  refine ⟨?_, ?_, ?_, ?_⟩
  · intro row hrow hlen
    simp only [resolveUserIdForInvoice, hcust, hrow]
    rw [if_pos hlen]
  · intro h
    simp [resolveUserIdForInvoice, hcust, h]
  · intro remote h
    simp [webhookHandler, hcust, h]
  · intro remote sid sub2 u h1 h2 h3
    simp [webhookHandler, h1, h2, h3]

/-- Witness for C6 at a concrete unmapped customer. -/
theorem C6_witness :
    exInvoiceX.customer = some "cusX" ∧
    findSubByCustomer exDbNoRows.subscriptions "cusX" = none ∧
    resolveUserIdForInvoice exDbNoRows.subscriptions exInvoiceX exSubX =
      getUserIdFromMetadata exSubX.metadata_user_id ∧
    webhookHandler exDbNoRows exRemoteX (.invoicePaid exInvoiceX) =
      { status := 200, db := exDbNoRows } := by
  refine ⟨by decide, by decide, ?_, ?_⟩
  · exact (C6_amended_resolution_precedence exDbNoRows exInvoiceX exSubX "cusX"
      (by decide)).2.1 (by decide)
  · exact (C6_amended_resolution_precedence exDbNoRows exInvoiceX exSubX "cusX"
      (by decide)).2.2.1 exRemoteX (by decide)

end RoomPrintz

namespace RoomPrintz

/-! ## Stage-room fixtures -/

def exStageReq : StageRoomRequest :=
  { authorizationHeader := "Bearer tok", hasFile := true, jobId := some "job1",
    styleId := some "modern-luxury", enhancePhoto := none, cleanupRoom := none,
    repairDamage := none, emptyRoom := none, renovateRoom := none,
    repaintWalls := none, flooringPreset := none, roomType := none,
    modelVersion := some "gemini-3", aspectRatio := none, isContinuation := none,
    propertyId := some "prop1", roomName := some "Kitchen" }

def exGrant10 : LedgerEntry :=
  { user_id := "u1", delta := 10, kind := "monthly_grant",
    external_id := "inv0", reason := "grant" }

def exEnvCompositorDown : StageRoomEnv :=
  { authUser := some "u1", ledger := [exGrant10], jobsRows := some [],
    spendRpcError := false, compositorData := none }

/-- The spend phase always records that the spend RPC was called. -/
theorem stageRoomSpendPhase_spendCalled (env : StageRoomEnv)
    (uid jobId : String) (cost : Int) (reason : String) :
    (stageRoomSpendPhase env uid jobId cost reason).spendCalled = true := by
  unfold stageRoomSpendPhase
  dsimp only
  repeat' split
  all_goals rfl

/-- The spend phase only answers 402, 500 or 200 — never a validation
status. -/
theorem stageRoomSpendPhase_status (env : StageRoomEnv)
    (uid jobId : String) (cost : Int) (reason : String) :
    (stageRoomSpendPhase env uid jobId cost reason).status = 402 ∨
    (stageRoomSpendPhase env uid jobId cost reason).status = 500 ∨
    (stageRoomSpendPhase env uid jobId cost reason).status = 200 := by
  unfold stageRoomSpendPhase
  dsimp only
  repeat' split
  all_goals simp

/-! ## C1 -/

/-- C1: the claim fails on the code. With balance 10 and cost 2, the spend
succeeds (10 → 8) and the downstream generation call then fails; but
`callCompositorEngine` THROWS on failure instead of returning a null
`imageUrl`, so the route's refund branch (guarded by `if (!imageUrl)`) is
bypassed and the throw lands in the route's outer catch: the response is a
plain 500, the ledger holds the spend entry and NO refund entry, and the
pre-spend balance 10 is not restored (it stays 8). -/
theorem C1_compositor_failure_leaves_spend_unrefunded :
    (callCompositorEngine exEnvCompositorDown.compositorData).isOk = false ∧
    (stageRoomPOST exStageReq exEnvCompositorDown).status = 500 ∧
    (stageRoomPOST exStageReq exEnvCompositorDown).ledger.filter
      (fun e => e.kind == "refund") = [] ∧
    hasKey (stageRoomPOST exStageReq exEnvCompositorDown).ledger
      "u1" "spend" "job1" = true ∧
    balanceOf exEnvCompositorDown.ledger "u1" = 10 ∧
    balanceOf (stageRoomPOST exStageReq exEnvCompositorDown).ledger "u1" = 8 := by
  decide

/-! ## C4 -/

/-- C4: when the spend RPC reports `success = false`, the route answers 402
carrying the required cost and the current balance, does not invoke the
compositor, and leaves the ledger unchanged for the request. -/
theorem C4_insufficient_balance_402_no_generation
    (req : StageRoomRequest) (env : StageRoomEnv) (tok uid jobId pid : String)
    (htok : bearerTokenOf req.authorizationHeader = some tok)
    (hauth : env.authUser = some uid)
    (hfile : req.hasFile = true)
    (hjob : normForm req.jobId = some jobId)
    (hpid : normForm req.propertyId = some pid)
    (hact : noActionSelected req = false)
    (hlin : lineageConflictOf req env = none)
    (hrpc : env.spendRpcError = false)
    (hfresh : hasKey env.ledger uid "spend" jobId = false)
    (hbal : balanceOf env.ledger uid < stageRoomCost req) :
    stageRoomPOST req env =
      { status := 402, ledger := env.ledger, spendCalled := true,
        compositorCalled := false, required := some (stageRoomCost req),
        tokenBalance := some (balanceOf env.ledger uid) } := by
  have hnle : ¬ stageRoomCost req ≤ balanceOf env.ledger uid := not_le.mpr hbal
  have hspend : try_spend_tokens env.ledger uid (stageRoomCost req) jobId
      ("room_generation:" ++ normalizedModelVersionOf req) =
      ({ success := false, balance := balanceOf env.ledger uid }, env.ledger) := by
    simp [try_spend_tokens, hfresh, hnle]
  have hphase : stageRoomSpendPhase env uid jobId (stageRoomCost req)
      ("room_generation:" ++ normalizedModelVersionOf req) =
      { status := 402, ledger := env.ledger, spendCalled := true,
        compositorCalled := false, required := some (stageRoomCost req),
        tokenBalance := some (balanceOf env.ledger uid) } := by
    simp [stageRoomSpendPhase, hrpc, hspend]
  simp [stageRoomPOST, htok, hauth, hfile, hjob, hpid, hact, hlin, hphase]

def exEnvLow : StageRoomEnv :=
  { authUser := some "u1",
    ledger := [{ user_id := "u1", delta := 1, kind := "topup",
                 external_id := "s1", reason := "topup" }],
    jobsRows := some [], spendRpcError := false,
    compositorData := some { imageUrl := some "http://img",
                             originalImageUrl := none, error := none } }

/-- Witness for C4 at balance 1 against cost 2. -/
theorem C4_witness :
    balanceOf exEnvLow.ledger "u1" < stageRoomCost exStageReq ∧
    stageRoomPOST exStageReq exEnvLow =
      { status := 402, ledger := exEnvLow.ledger, spendCalled := true,
        compositorCalled := false, required := some (stageRoomCost exStageReq),
        tokenBalance := some (balanceOf exEnvLow.ledger "u1") } ∧
    stageRoomCost exStageReq = 2 ∧ balanceOf exEnvLow.ledger "u1" = 1 := by
  refine ⟨by decide, ?_, by decide, by decide⟩
  exact C4_insufficient_balance_402_no_generation exStageReq exEnvLow "tok" "u1"
    "job1" "prop1" (by decide) (by decide) (by decide) (by decide) (by decide)
    (by decide) (by decide) (by decide) (by decide) (by decide)

/-! ## C10 -/

/-- C10: every 400/401/409 validation rejection of the stage-room route —
missing/invalid bearer token, missing file, missing jobId, missing
propertyId, no action selected, room-name lineage conflict — happens before
the token spend call: the spend RPC is not invoked and no ledger entry is
created for the request. -/
theorem C10_validation_rejections_precede_spend
    (req : StageRoomRequest) (env : StageRoomEnv) :
    ((stageRoomPOST req env).status = 400 ∨
     (stageRoomPOST req env).status = 401 ∨
     (stageRoomPOST req env).status = 409) →
    (stageRoomPOST req env).spendCalled = false ∧
    (stageRoomPOST req env).ledger = env.ledger := by
  unfold stageRoomPOST rejectWith
  repeat' split
  all_goals intro h
  all_goals try exact ⟨rfl, rfl⟩
  all_goals
    (exfalso;
     rcases stageRoomSpendPhase_status env _ _ _ _ with hs | hs | hs <;>
       rcases h with h | h | h <;> rw [h] at hs <;> omega)

/-- Witness for C10: a request with no bearer token is rejected 401 with no
spend. -/
theorem C10_witness :
    ((stageRoomPOST { exStageReq with authorizationHeader := "" } exEnvLow).status
        = 400 ∨
     (stageRoomPOST { exStageReq with authorizationHeader := "" } exEnvLow).status
        = 401 ∨
     (stageRoomPOST { exStageReq with authorizationHeader := "" } exEnvLow).status
        = 409) ∧
    (stageRoomPOST { exStageReq with authorizationHeader := "" } exEnvLow).spendCalled
      = false ∧
    (stageRoomPOST { exStageReq with authorizationHeader := "" } exEnvLow).ledger
      = exEnvLow.ledger := by
  refine ⟨by decide, ?_⟩
  exact C10_validation_rejections_precede_spend
    { exStageReq with authorizationHeader := "" } exEnvLow (by decide)

end RoomPrintz

namespace RoomPrintz

/-! ## C5 -/

/-- One spend request of a concurrent batch: its cost and its job id. -/
structure SpendReq where
  cost : Int
  jobId : String
deriving Repr, DecidableEq

/-- Sequential execution of a batch of `try_spend_tokens` calls for one
customer. The RPC runs atomically per customer (§4.5, §5), so every
concurrent execution of a batch is equivalent to running the calls in some
order; the list argument ranges over all such orders. Returns each call's
reported success flag and the final ledger. -/
def runSpends (uid : String) (l : List LedgerEntry) :
    List SpendReq → List (SpendReq × Bool) × List LedgerEntry
  | [] => ([], l)
  | r :: rs =>
      let step := try_spend_tokens l uid r.cost r.jobId "spend"
      let rest := runSpends uid step.2 rs
      ((r, step.1.success) :: rest.1, rest.2)

/-- Total cost of the calls that reported success. -/
def successTotal : List (SpendReq × Bool) → Int
  | [] => 0
  | p :: ps => (if p.2 then p.1.cost else 0) + successTotal ps

/-- Appending one entry shifts the balance by its delta when it belongs to
the customer. -/
theorem balanceOf_append (l : List LedgerEntry) (e : LedgerEntry)
    (uid : String) :
    balanceOf (l ++ [e]) uid =
      balanceOf l uid + (if e.user_id == uid then e.delta else 0) := by
  by_cases h : (e.user_id == uid) = true <;>
    simp [balanceOf, List.filter_append, h]

/-- `hasKey` over an appended entry. -/
theorem hasKey_append (l : List LedgerEntry) (e : LedgerEntry)
    (uid k x : String) :
    hasKey (l ++ [e]) uid k x =
      (hasKey l uid k x ||
        (e.user_id == uid && e.kind == k && e.external_id == x)) := by
  simp [hasKey, List.any_append]

/-- C5: for every batch of `trySpend` calls for one customer — processed in
any order, which by the per-customer atomicity of the RPC covers every
concurrent interleaving — with positive costs, distinct job ids fresh in the
starting ledger, and a nonnegative starting balance, the total cost of the
successful spends never exceeds the balance available at the start. -/
theorem C5_concurrent_spends_bounded_by_initial_balance
    (uid : String) (reqs : List SpendReq) (l : List LedgerEntry)
    (hcost : ∀ r ∈ reqs, 0 < r.cost)
    (hdist : (reqs.map SpendReq.jobId).Nodup)
    (hfresh : ∀ r ∈ reqs, hasKey l uid "spend" r.jobId = false)
    (hbal : 0 ≤ balanceOf l uid) :
    successTotal (runSpends uid l reqs).1 ≤ balanceOf l uid := by
  induction reqs generalizing l with
  | nil => simpa [runSpends, successTotal] using hbal
  | cons r rs ih =>
    have hfr : hasKey l uid "spend" r.jobId = false := hfresh r (by simp)
    rw [List.map_cons] at hdist
    have hdist2 := List.nodup_cons.mp hdist
    by_cases hle : r.cost ≤ balanceOf l uid
    · set e : LedgerEntry :=
        { user_id := uid, delta := -r.cost, kind := "spend",
          external_id := r.jobId, reason := "spend" } with he
      have hstep : try_spend_tokens l uid r.cost r.jobId "spend" =
          ({ success := true, balance := balanceOf l uid - r.cost },
            l ++ [e]) := by
        simp [try_spend_tokens, hfr, hle, he]
      have hbalApp : balanceOf (l ++ [e]) uid = balanceOf l uid - r.cost := by
        rw [balanceOf_append]; simp [he, sub_eq_add_neg]
      have hfresh2 : ∀ r2 ∈ rs, hasKey (l ++ [e]) uid "spend" r2.jobId = false := by
        intro r2 hr2
        have h1 : hasKey l uid "spend" r2.jobId = false :=
          hfresh r2 (by simp [hr2])
        have hne : r2.jobId ≠ r.jobId := by
          intro hEq
          exact hdist2.1 (List.mem_map.mpr ⟨r2, hr2, hEq⟩)
        have hne2 : (r.jobId == r2.jobId) = false :=
          beq_eq_false_iff_ne.mpr (Ne.symm hne)
        rw [hasKey_append]
        simp [h1, he, hne2]
      have hbal2 : 0 ≤ balanceOf (l ++ [e]) uid := by
        rw [hbalApp]; linarith
      have ihx := ih (l ++ [e]) (fun r2 hr2 => hcost r2 (by simp [hr2]))
        hdist2.2 hfresh2 hbal2
      rw [hbalApp] at ihx
      simp [runSpends, hstep, successTotal]
      linarith
    · have hstep : try_spend_tokens l uid r.cost r.jobId "spend" =
          ({ success := false, balance := balanceOf l uid }, l) := by
        simp [try_spend_tokens, hfr, hle]
      have ihx := ih l (fun r2 hr2 => hcost r2 (by simp [hr2])) hdist2.2
        (fun r2 hr2 => hfresh r2 (by simp [hr2])) hbal
      simp only [runSpends, hstep, successTotal]
      simpa using ihx

def exSpendBatch : List SpendReq :=
  [{ cost := 2, jobId := "a" }, { cost := 2, jobId := "b" },
   { cost := 2, jobId := "c" }]

def exLedger3 : List LedgerEntry :=
  [{ user_id := "u1", delta := 3, kind := "topup", external_id := "t1",
     reason := "topup" }]

/-- Witness for C5: three cost-2 requests against balance 3. -/
theorem C5_witness :
    (∀ r ∈ exSpendBatch, 0 < r.cost) ∧
    (exSpendBatch.map SpendReq.jobId).Nodup ∧
    (∀ r ∈ exSpendBatch, hasKey exLedger3 "u1" "spend" r.jobId = false) ∧
    0 ≤ balanceOf exLedger3 "u1" ∧
    successTotal (runSpends "u1" exLedger3 exSpendBatch).1 ≤
      balanceOf exLedger3 "u1" := by
  refine ⟨by decide, by decide, by decide, by decide, ?_⟩
  exact C5_concurrent_spends_bounded_by_initial_balance "u1" exSpendBatch
    exLedger3 (by decide) (by decide) (by decide) (by decide)

end RoomPrintz

namespace RoomPrintz

/-! ## C2 -/

/-- Deliver the same webhook event `n` times in sequence (at-least-once
delivery with retries). -/
def deliverTimes (remote : StripeRemote) (ev : StripeEvent) :
    Nat → DbState → DbState
  | 0, db => db
  | n + 1, db => deliverTimes remote ev n (webhookHandler db remote ev).db

/-- The `monthly_grant` entries a ledger holds for one invoice. -/
def grantsForInvoice (l : List LedgerEntry) (invoiceId : String) :
    List LedgerEntry :=
  l.filter (fun e => e.kind == "monthly_grant" && e.external_id == invoiceId)

@[simp] theorem paidUpsertRow_user_id (c uidv : String)
    (sub : StripeSubscription) (plan : Plan) :
    (paidUpsertRow c uidv sub plan).user_id = uidv := rfl

@[simp] theorem paidUpsertRow_customer (c uidv : String)
    (sub : StripeSubscription) (plan : Plan) :
    (paidUpsertRow c uidv sub plan).stripe_customer_id = some c := rfl

/-- A ledger with no monthly-grant entry for an invoice in particular has no
entry with any customer's `(monthly_grant, invoiceId)` key. -/
theorem hasKey_false_of_grantsForInvoice_nil {l : List LedgerEntry}
    {uid i : String} (h : grantsForInvoice l i = []) :
    hasKey l uid "monthly_grant" i = false := by
  rw [hasKey, List.any_eq_false]
  intro e he hc
  have h2 := List.filter_eq_nil_iff.mp h e he
  apply h2
  simp only [Bool.and_eq_true] at hc ⊢
  exact ⟨hc.1.2, hc.2⟩

/-- A ledger containing the grant entry has its idempotency key. -/
theorem hasKey_true_of_grant_mem {l : List LedgerEntry} {uidv i : String}
    {plan : Plan} (h : grantEntryOf uidv i plan ∈ l) :
    hasKey l uidv "monthly_grant" i = true := by
  rw [hasKey, List.any_eq_true]
  exact ⟨grantEntryOf uidv i plan, h, by simp [grantEntryOf]⟩

/-- `grantsForInvoice` distributes over an appended entry. -/
theorem grantsForInvoice_append (l : List LedgerEntry) (e : LedgerEntry)
    (i : String) :
    grantsForInvoice (l ++ [e]) i =
      grantsForInvoice l i ++ grantsForInvoice [e] i := by
  simp [grantsForInvoice, List.filter_append]

/-- After a keyed upsert whose row matches the found row's user and carries
the customer id, the customer lookup finds exactly the upserted row. -/
theorem find_map_upsert (subs : List SubscriptionRow)
    (row newRow : SubscriptionRow) (c : String)
    (hfind : findSubByCustomer subs c = some row)
    (huser : newRow.user_id = row.user_id)
    (hcust : newRow.stripe_customer_id = some c) :
    (subs.map (fun r => if r.user_id == newRow.user_id then newRow else r)).find?
      (fun r => r.stripe_customer_id == some c) = some newRow := by
  induction subs with
  | nil => simp [findSubByCustomer] at hfind
  | cons r0 rest ih =>
    by_cases hr0 : (r0.user_id == newRow.user_id) = true
    · have h10 : List.map
          (fun r => if r.user_id == newRow.user_id then newRow else r)
          (r0 :: rest) =
          newRow :: List.map
            (fun r => if r.user_id == newRow.user_id then newRow else r)
            rest := by
        simp [hr0]
        intro hx
        exact absurd (by simpa using hr0) hx
      rw [h10]
      exact List.find?_cons_of_pos _ (by simp [hcust])
    · have hr0' : (r0.user_id == newRow.user_id) = false := by simpa using hr0
      by_cases hp : (r0.stripe_customer_id == some c) = true
      · exfalso
        unfold findSubByCustomer at hfind
        simp [hp] at hfind
        apply hr0
        simp only [beq_iff_eq]
        rw [hfind]
        exact huser.symm
      · have hp2 : (r0.stripe_customer_id == some c) = false := by simpa using hp
        unfold findSubByCustomer at hfind
        simp [hp2] at hfind
        have h10 : List.map
            (fun r => if r.user_id == newRow.user_id then newRow else r)
            (r0 :: rest) =
            r0 :: List.map
              (fun r => if r.user_id == newRow.user_id then newRow else r)
              rest := by
          simp [hr0']
          intro hx
          exact absurd hx (by simpa using hr0')
        rw [h10]
        calc List.find? (fun r => r.stripe_customer_id == some c)
              (r0 :: List.map
                (fun r => if r.user_id == newRow.user_id then newRow else r)
                rest)
            = List.find? (fun r => r.stripe_customer_id == some c)
                (List.map
                  (fun r => if r.user_id == newRow.user_id then newRow else r)
                  rest) := List.find?_cons_of_neg _ (by simp [hp2])
          _ = some newRow := ih hfind

/-- `findSubByCustomer` after `upsertSubsFull`, when the lookup succeeded
before and the new row keeps the user and customer ids. -/
theorem findSubByCustomer_upsertSubsFull (subs : List SubscriptionRow)
    (row newRow : SubscriptionRow) (c : String)
    (hfind : findSubByCustomer subs c = some row)
    (huser : newRow.user_id = row.user_id)
    (hcust : newRow.stripe_customer_id = some c) :
    findSubByCustomer (upsertSubsFull subs newRow) c = some newRow := by
  have hmem : row ∈ subs := List.mem_of_find?_eq_some hfind
  have hany : (subs.any (fun r => r.user_id == newRow.user_id)) = true := by
    rw [List.any_eq_true]
    exact ⟨row, hmem, by simp [huser]⟩
  unfold upsertSubsFull findSubByCustomer
  simp only [hany, if_true]
  exact find_map_upsert subs row newRow c hfind huser hcust

/-- One `invoice.paid` dispatch when the full resolution chain succeeds. -/
theorem invoicePaid_step (db : DbState) (remote : StripeRemote)
    (invoice : Invoice) (c : String) (row' : SubscriptionRow) (sid : String)
    (sub : StripeSubscription) (p : String) (plan : Plan)
    (hcust : invoice.customer = some c)
    (hfind : findSubByCustomer db.subscriptions c = some row')
    (huid : row'.user_id.isEmpty = false)
    (hsid : resolvedSubscriptionId invoice row' = some sid)
    (hsub : retrieveSubscription remote sid = some sub)
    (hprice : sub.priceId = some p)
    (hplan : getPlanByPriceId db.plans (some p) = some plan) :
    webhookHandler db remote (.invoicePaid invoice) =
      { status := 200, retrievedSubId := some sid,
        db := { db with
          token_ledger :=
            (ledgerInsert db.token_ledger
              (grantEntryOf row'.user_id invoice.id plan)).1,
          subscriptions :=
            (upsertSubsFull db.subscriptions
              (paidUpsertRow c row'.user_id sub plan)) } } := by
  simp [webhookHandler, hcust, hfind, huid, hsid, hsub, hprice, hplan]

/-- Dispatching `invoice.paid` from any state that already carries the
converged subscription row and exactly one grant for the invoice returns
200 and preserves that row, the plans table, and the single grant. -/
theorem invoicePaid_deliver_inv (remote : StripeRemote) (invoice : Invoice)
    (c sid : String) (sub : StripeSubscription) (p : String) (plan : Plan)
    (uidv : String) (plans0 : List Plan)
    (hcust : invoice.customer = some c)
    (hsub : retrieveSubscription remote sid = some sub)
    (hprice : sub.priceId = some p)
    (hplan0 : getPlanByPriceId plans0 (some p) = some plan)
    (huid : uidv.isEmpty = false)
    (hsid2 : resolvedSubscriptionId invoice (paidUpsertRow c uidv sub plan)
      = some sid) :
    ∀ d : DbState,
      findSubByCustomer d.subscriptions c = some (paidUpsertRow c uidv sub plan) →
      d.plans = plans0 →
      grantsForInvoice d.token_ledger invoice.id
        = [grantEntryOf uidv invoice.id plan] →
      (webhookHandler d remote (.invoicePaid invoice)).status = 200 ∧
      findSubByCustomer
          (webhookHandler d remote (.invoicePaid invoice)).db.subscriptions c
        = some (paidUpsertRow c uidv sub plan) ∧
      (webhookHandler d remote (.invoicePaid invoice)).db.plans = plans0 ∧
      grantsForInvoice
          (webhookHandler d remote (.invoicePaid invoice)).db.token_ledger
          invoice.id
        = [grantEntryOf uidv invoice.id plan] := by
  intro d h1 h2 h3
  have hplanD : getPlanByPriceId d.plans (some p) = some plan := by
    rw [h2]; exact hplan0
  have huidD : (paidUpsertRow c uidv sub plan).user_id.isEmpty = false := huid
  have hstep := invoicePaid_step d remote invoice c
    (paidUpsertRow c uidv sub plan) sid sub p plan hcust h1 huidD hsid2 hsub
    hprice hplanD
  have hmem : grantEntryOf uidv invoice.id plan ∈ d.token_ledger := by
    have hmem2 : grantEntryOf uidv invoice.id plan ∈
        grantsForInvoice d.token_ledger invoice.id := by
      rw [h3]; simp
    exact List.mem_of_mem_filter hmem2
  have hkey : hasKey d.token_ledger uidv "monthly_grant" invoice.id = true :=
    hasKey_true_of_grant_mem hmem
  have hins : ledgerInsert d.token_ledger
      (grantEntryOf (paidUpsertRow c uidv sub plan).user_id invoice.id plan) =
      (d.token_ledger, false) := by
    simp [ledgerInsert, grantEntryOf, hkey]
  refine ⟨?_, ?_, ?_, ?_⟩
  · rw [hstep]
  · rw [hstep]
    exact findSubByCustomer_upsertSubsFull d.subscriptions
      (paidUpsertRow c uidv sub plan) (paidUpsertRow c uidv sub plan) c h1
      rfl rfl
  · rw [hstep]
    exact h2
  · rw [hstep]
    dsimp only
    rw [hins]
    exact h3

/-- C2: when an `invoice.paid` event resolves (stored mapping, subscription,
price and plan all found) and the ledger holds no `monthly_grant` for the
invoice yet, then however many times the event is delivered, the ledger ends
up with exactly one `monthly_grant` entry for that invoice — whose delta is
the plan's monthly token amount — and every delivery, the duplicate ones
included, is acknowledged with HTTP 200 (the duplicate insert is swallowed). -/
theorem C2_invoice_paid_idempotent_single_grant
    (db : DbState) (remote : StripeRemote) (invoice : Invoice)
    (c : String) (row : SubscriptionRow) (sid : String)
    (sub : StripeSubscription) (p : String) (plan : Plan)
    (hcust : invoice.customer = some c)
    (hfind : findSubByCustomer db.subscriptions c = some row)
    (huid : row.user_id.isEmpty = false)
    (hsid : resolvedSubscriptionId invoice row = some sid)
    (hsub : retrieveSubscription remote sid = some sub)
    (hprice : sub.priceId = some p)
    (hplan : getPlanByPriceId db.plans (some p) = some plan)
    (hfresh : grantsForInvoice db.token_ledger invoice.id = []) :
    (grantEntryOf row.user_id invoice.id plan).delta = plan.monthly_tokens ∧
    (∀ n : Nat,
      grantsForInvoice
          (deliverTimes remote (.invoicePaid invoice) (n + 1) db).token_ledger
          invoice.id
        = [grantEntryOf row.user_id invoice.id plan]) ∧
    (∀ k : Nat,
      (webhookHandler (deliverTimes remote (.invoicePaid invoice) k db)
        remote (.invoicePaid invoice)).status = 200) := by
  have hkey0 : hasKey db.token_ledger row.user_id "monthly_grant" invoice.id
      = false := hasKey_false_of_grantsForInvoice_nil hfresh
  have hstep0 := invoicePaid_step db remote invoice c row sid sub p plan
    hcust hfind huid hsid hsub hprice hplan
  have hsid2 : resolvedSubscriptionId invoice
      (paidUpsertRow c row.user_id sub plan) = some sid := by
    cases hi : invoice.subscription with
    | some s2 =>
        simp only [resolvedSubscriptionId, hi] at hsid ⊢
        exact hsid
    | none =>
        simp only [resolvedSubscriptionId, hi, paidUpsertRow]
        rw [retrieveSubscription_id hsub]
  have hins0 : ledgerInsert db.token_ledger
      (grantEntryOf row.user_id invoice.id plan) =
      (db.token_ledger ++ [grantEntryOf row.user_id invoice.id plan], true) := by
    simp [ledgerInsert, grantEntryOf, hkey0]
  have hledger1 : (webhookHandler db remote (.invoicePaid invoice)).db.token_ledger
      = db.token_ledger ++ [grantEntryOf row.user_id invoice.id plan] := by
    rw [hstep0]
    dsimp only
    rw [hins0]
  have hsubs1 : findSubByCustomer
      (webhookHandler db remote (.invoicePaid invoice)).db.subscriptions c
      = some (paidUpsertRow c row.user_id sub plan) := by
    rw [hstep0]
    exact findSubByCustomer_upsertSubsFull db.subscriptions row
      (paidUpsertRow c row.user_id sub plan) c hfind rfl rfl
  have hplans1 : (webhookHandler db remote (.invoicePaid invoice)).db.plans
      = db.plans := by
    rw [hstep0]
  have hgrants1 : grantsForInvoice
      (webhookHandler db remote (.invoicePaid invoice)).db.token_ledger
      invoice.id = [grantEntryOf row.user_id invoice.id plan] := by
    rw [hledger1, grantsForInvoice_append, hfresh]
    simp [grantsForInvoice, grantEntryOf]
  have hInv := invoicePaid_deliver_inv remote invoice c sid sub p plan
    row.user_id db.plans hcust hsub hprice hplan huid hsid2
  have hmain : ∀ n : Nat, ∀ d : DbState,
      findSubByCustomer d.subscriptions c
        = some (paidUpsertRow c row.user_id sub plan) →
      d.plans = db.plans →
      grantsForInvoice d.token_ledger invoice.id
        = [grantEntryOf row.user_id invoice.id plan] →
      (findSubByCustomer
          (deliverTimes remote (.invoicePaid invoice) n d).subscriptions c
        = some (paidUpsertRow c row.user_id sub plan) ∧
      (deliverTimes remote (.invoicePaid invoice) n d).plans = db.plans ∧
      grantsForInvoice
          (deliverTimes remote (.invoicePaid invoice) n d).token_ledger
          invoice.id
        = [grantEntryOf row.user_id invoice.id plan]) := by
    intro n
    induction n with
    | zero => intro d h1 h2 h3; exact ⟨h1, h2, h3⟩
    | succ n ihn =>
        intro d h1 h2 h3
        have hstep := hInv d h1 h2 h3
        exact ihn _ hstep.2.1 hstep.2.2.1 hstep.2.2.2
  refine ⟨rfl, ?_, ?_⟩
  · intro n
    have hx := hmain n (webhookHandler db remote (.invoicePaid invoice)).db
      hsubs1 hplans1 hgrants1
    exact hx.2.2
  · intro k
    cases k with
    | zero =>
        simp only [deliverTimes]
        rw [hstep0]
    | succ n =>
        have hx := hmain n (webhookHandler db remote (.invoicePaid invoice)).db
          hsubs1 hplans1 hgrants1
        exact (hInv _ hx.1 hx.2.1 hx.2.2).1

/-- Witness for C2: the fixture invoice delivered once and twice yields the
same single 100-token grant, each time acknowledged 200. -/
theorem C2_witness :
    grantsForInvoice exDb.token_ledger exInvoice.id = [] ∧
    grantsForInvoice
        (deliverTimes exRemote (.invoicePaid exInvoice) 1 exDb).token_ledger
        exInvoice.id
      = [grantEntryOf "u1" exInvoice.id exPlan] ∧
    grantsForInvoice
        (deliverTimes exRemote (.invoicePaid exInvoice) 2 exDb).token_ledger
        exInvoice.id
      = [grantEntryOf "u1" exInvoice.id exPlan] ∧
    (webhookHandler exDb exRemote (.invoicePaid exInvoice)).status = 200 ∧
    (grantEntryOf "u1" exInvoice.id exPlan).delta = 100 := by
  have h := C2_invoice_paid_idempotent_single_grant exDb exRemote exInvoice
    "cus1" exRow "sub1" exCurrentSub "price1" exPlan (by decide) (by decide)
    (by decide) (by decide) (by decide) (by decide) (by decide) (by decide)
  exact ⟨by decide, h.2.1 0, h.2.1 1, h.2.2 0, by decide⟩

end RoomPrintz
